import Mathlib

/-
Verification of the Superskipper address scraper (src/streamlit-app.py).

The program formats address rows into strings and submits them in batches
to a lookup API, relaying outcomes to a webhook.  The HTTP world is
modelled by oracles: `oracle k` gives the outcome of the API GET for the
k-th batch (a transport exception, or a response with status, body text
and the result of JSON parsing), and `whOk p` tells whether the p-th
webhook POST attempt succeeds.  Every observable side effect (API GET,
webhook POST, rate-limit sleep) is recorded in an event trace.
-/

namespace Superskipper

/-- JSON values, as exchanged with the lookup API and the webhook. -/
inductive Json where
  | null
  | bool (b : Bool)
  | num (n : Int)
  | str (s : String)
  | arr (elems : List Json)
  | obj (fields : List (String × Json))

/-- Python `d.get(k)`: on a dict, the value at `k` or `None`; on any other
value an `AttributeError` is raised. -/
def pyGet (j : Json) (k : String) : Except String (Option Json) :=
  match j with
  | .obj fields => .ok (fields.lookup k)
  | _ => .error "AttributeError: object has no attribute get"

/-- Hexadecimal digit characters used by percent-encoding. -/
def hexDigit (n : Nat) : Char :=
  (['0','1','2','3','4','5','6','7','8','9','A','B','C','D','E','F']).getD n '0'

/-- UTF-8 byte sequence of a Unicode code point. -/
def utf8Bytes (n : Nat) : List Nat :=
  if n < 128 then [n]
  else if n < 2048 then [192 + n / 64, 128 + n % 64]
  else if n < 65536 then [224 + n / 4096, 128 + (n / 64) % 64, 128 + n % 64]
  else [240 + n / 262144, 128 + (n / 4096) % 64, 128 + (n / 64) % 64, 128 + n % 64]

/-- Characters `urllib.parse.quote` leaves unescaped: ASCII alphanumerics,
`_.-~`, and the default safe character `/`. -/
def quoteSafe (c : Char) : Bool :=
  c.isAlphanum || c = '_' || c = '.' || c = '-' || c = '~' || c = '/'

/-- Percent-encode one character as `urllib.parse.quote` does. -/
def quoteChar (c : Char) : String :=
  if quoteSafe c then c.toString
  else String.join ((utf8Bytes c.toNat).map
    (fun b => String.mk ['%', hexDigit (b / 16), hexDigit (b % 16)]))

/-- `urllib.parse.quote` with the default safe set. -/
def quote (s : String) : String :=
  String.join (s.data.map quoteChar)

/-- One row of the input table: column name to cell text; a column may be
absent. -/
structure Row where
  cells : List (String × String)
  deriving Repr, DecidableEq

/-- Pandas `row.get(key, default)`. -/
def Row.get (r : Row) (k : String) (dflt : String) : String :=
  (r.cells.lookup k).getD dflt

/-- Python `str.strip()`: remove leading and trailing whitespace. -/
def pyStrip (s : String) : String :=
  ⟨((s.data.dropWhile Char.isWhitespace).reverse.dropWhile Char.isWhitespace).reverse⟩

/-- Python `str.upper()`: upper-case every character. -/
def pyUpper (s : String) : String :=
  ⟨s.data.map Char.toUpper⟩

/-- Lines 12-29 of src/streamlit-app.py: map each row to
`"ADDRESS, CITY, STATE ZIP"`, trimming all four fields and upper-casing
address, city and state. -/
def format_addresses_from_dataframe (df : List Row) : List String :=
  df.map (fun row =>
    let address := pyUpper (pyStrip (row.get "Address" ""))
    let city := pyUpper (pyStrip (row.get "City" ""))
    let state := pyUpper (pyStrip (row.get "State" ""))
    let zip_code := pyStrip (row.get "Zip" "")
    address ++ ", " ++ city ++ ", " ++ state ++ " " ++ zip_code)

/-- Outcome of one `requests.get` call: either the call raised a transport
exception, or a response arrived carrying a status code, the body text,
and the result of `response.json()` (which may itself raise). -/
inductive Outcome where
  | exn (msg : String)
  | resp (status : Nat) (text : String) (json : Except String Json)

/-- One entry of the `results` list built by the submission loop. -/
inductive BatchResult where
  | submitted (batch : Nat) (request_id : Option Json)
  | completed (batch : Nat) (data : Json)
  | error (batch : Nat) (error : String)

/-- Value of the `"batch"` field of a result entry. -/
def BatchResult.batch : BatchResult → Nat
  | .submitted b _ => b
  | .completed b _ => b
  | .error b _ => b

/-- Value of the `"status"` field of a result entry. -/
def BatchResult.status : BatchResult → String
  | .submitted .. => "submitted"
  | .completed .. => "completed"
  | .error .. => "error"

/-- The run summary returned by `submit_batch_with_webhook`. -/
structure Summary where
  total_batches : Int
  submitted : Nat
  completed : Nat
  errors : Nat
  deriving Repr, DecidableEq

/-- Observable side effects of a run, in order of occurrence. -/
inductive Event where
  | apiGet (url : String) (headers : List (String × String))
  | webhookPost (body : Json) (delivered : Bool)
  | sleep

/-- Mutable state of the submission loop: the accumulated results list,
the event trace, and how many webhook POSTs were attempted so far. -/
structure St where
  results : List BatchResult
  trace : List Event
  nPosts : Nat

/-- Attempt one webhook POST (`requests.post(webhook_url, json=body)`);
its success or failure is recorded in the trace and affects nothing else,
since the source wraps every such call in a bare try/except. -/
def postWebhook (whOk : Nat → Bool) (body : Json) (st : St) : St :=
  ⟨st.results, st.trace ++ [.webhookPost body (whOk st.nPosts)], st.nPosts + 1⟩

/-- The fixed API endpoint (line 62). -/
def base_url : String := "https://api.app.outscraper.com/whitepages-addresses"

/-- Lines 62-69: the request URL for one batch, carrying the
percent-encoded webhook URL and one percent-encoded `query` parameter per
address.  The API key is not part of the URL. -/
def buildUrl (webhook_url : String) (batch : List String) : String :=
  let query_params :=
    ("webhook_url=" ++ quote webhook_url) :: batch.map (fun a => "query=" ++ quote a)
  base_url ++ "?" ++ String.intercalate "&" query_params

/-- Lines 56-124, one iteration of the loop for the k-th batch
(`i = k * batch_size`).  The GET is issued; on a transport exception, a
JSON decode error, or an `AttributeError` from `data.get`, control jumps
to the `except` clause which records an error result — note that this
skips the `time.sleep(1)`, which sits inside the `try`. -/
def processBatch (api_key : String) (addresses : List String) (webhook_url : String)
    (oracle : Nat → Outcome) (whOk : Nat → Bool) (batch_size : Nat)
    (st : St) (k : Nat) : St :=
  let i := k * batch_size
  let batch := (addresses.drop i).take batch_size
  let current_batch := i / batch_size + 1
  let url := buildUrl webhook_url batch
  let headers := [("X-API-KEY", api_key)]
  let st : St := ⟨st.results, st.trace ++ [.apiGet url headers], st.nPosts⟩
  let maybeSleep : St → St := fun s =>
    if i + batch_size < addresses.length then ⟨s.results, s.trace ++ [.sleep], s.nPosts⟩ else s
  match oracle k with
  | .exn msg =>
      ⟨st.results ++ [.error current_batch msg], st.trace, st.nPosts⟩
  | .resp status text json =>
      if status = 200 ∨ status = 202 then
        match json with
        | .error msg =>
            ⟨st.results ++ [.error current_batch msg], st.trace, st.nPosts⟩
        | .ok data =>
          if status = 202 then
            match pyGet data "id" with
            | .error msg =>
                ⟨st.results ++ [.error current_batch msg], st.trace, st.nPosts⟩
            | .ok request_id =>
                maybeSleep (postWebhook whOk data
                  ⟨st.results ++ [.submitted current_batch request_id], st.trace, st.nPosts⟩)
          else
            maybeSleep (postWebhook whOk data
              ⟨st.results ++ [.completed current_batch data], st.trace, st.nPosts⟩)
      else
        maybeSleep
          ⟨st.results ++ [.error current_batch (toString status ++ " - " ++ text)],
            st.trace, st.nPosts⟩

/-- Message of Python's division-by-zero exception, raised at line 44 when
`batch_size == 0`. -/
def zeroDivMsg : String := "ZeroDivisionError: integer division or modulo by zero"

/-- Line 52: body of the run-start test POST.  The source writes the
string `"true"`, not the boolean. -/
def testBody : Json :=
  Json.obj [("test", Json.str "true"), ("message", Json.str "Starting processing")]

/-- Number of iterations of `for i in range(0, n, b)` for `b > 0`,
which equals the ceiling of `n / b`. -/
def numBatches (n b : Nat) : Nat := (n + b - 1) / b

/-- Lines 144-147: body of the final summary POST. -/
def summaryBody (s : Summary) : Json :=
  Json.obj [("summary", Json.bool true), ("total_batches", Json.num s.total_batches),
    ("submitted", Json.num s.submitted), ("completed", Json.num s.completed),
    ("errors", Json.num s.errors)]

/-- Lines 38-151 of src/streamlit-app.py.  `batch_size = 0` raises a
`ZeroDivisionError` at line 44 (before any network traffic); a negative
`batch_size` makes `range(0, n, batch_size)` empty, so no batch is
processed.  `total_batches` uses Python floor division.  Returns the
results list, the summary, and the event trace. -/
def submit_batch_with_webhook (api_key : String) (addresses : List String)
    (webhook_url : String) (oracle : Nat → Outcome) (whOk : Nat → Bool)
    (batch_size : Int) : Except String (List BatchResult × Summary × List Event) :=
  if batch_size = 0 then .error zeroDivMsg
  else
    let total_batches : Int := Int.fdiv ((addresses.length : Int) + batch_size - 1) batch_size
    let st : St := postWebhook whOk testBody ⟨[], [], 0⟩
    let st : St :=
      if 0 < batch_size then
        (List.range (numBatches addresses.length batch_size.toNat)).foldl
          (processBatch api_key addresses webhook_url oracle whOk batch_size.toNat) st
      else st
    let submitted := st.results.countP (fun r => r.status == "submitted")
    let completed := st.results.countP (fun r => r.status == "completed")
    let errors := st.results.countP (fun r => r.status == "error")
    let summary : Summary := ⟨total_batches, submitted, completed, errors⟩
    let st : St := if 0 < submitted then postWebhook whOk (summaryBody summary) st else st
    .ok (st.results, summary, st.trace)

/-- The list of batches the loop slices out of the address list
(`addresses[i:i+batch_size]` for `i in range(0, n, batch_size)`). -/
def batches (addresses : List String) (b : Nat) : List (List String) :=
  (List.range (numBatches addresses.length b)).map
    (fun k => (addresses.drop (k * b)).take b)

/-- The single result entry recorded for a batch with 1-based index `c`
whose request had outcome `o` (mirror of the branch structure of
`processBatch`). -/
def classify (c : Nat) (o : Outcome) : BatchResult :=
  match o with
  | .exn msg => .error c msg
  | .resp status text json =>
      if status = 200 ∨ status = 202 then
        match json with
        | .error msg => .error c msg
        | .ok data =>
          if status = 202 then
            match pyGet data "id" with
            | .error msg => .error c msg
            | .ok request_id => .submitted c request_id
          else .completed c data
      else .error c (toString status ++ " - " ++ text)

/-- The response body forwarded to the webhook for a batch with outcome
`o` (`none` when no per-batch forwarding POST is attempted). -/
def forwards (o : Outcome) : Option Json :=
  match o with
  | .exn _ => none
  | .resp status _ json =>
      if status = 200 ∨ status = 202 then
        match json with
        | .error _ => none
        | .ok data =>
          if status = 202 then
            match pyGet data "id" with
            | .error _ => none
            | .ok _ => some data
          else some data
      else none

/-- Whether the batch body raised an exception that jumped to the outer
`except` clause (transport error, JSON decode error, or `AttributeError`
from `data.get`), skipping the `time.sleep(1)`. -/
def raised (o : Outcome) : Bool :=
  match o with
  | .exn _ => true
  | .resp status _ json =>
      if status = 200 ∨ status = 202 then
        match json with
        | .error _ => true
        | .ok data =>
          if status = 202 then
            match pyGet data "id" with
            | .error _ => true
            | .ok _ => false
          else false
      else false

/-- Recognizer for the rate-limiting pause event. -/
def Event.isSleep : Event → Bool
  | .sleep => true
  | _ => false

/-- Extract the request URL from an API GET event. -/
def urlOf : Event → Option String
  | .apiGet u _ => some u
  | _ => none

theorem postWebhook_results (whOk : Nat → Bool) (body : Json) (st : St) :
    (postWebhook whOk body st).results = st.results := rfl

theorem postWebhook_trace (whOk : Nat → Bool) (body : Json) (st : St) :
    (postWebhook whOk body st).trace
      = st.trace ++ [Event.webhookPost body (whOk st.nPosts)] := rfl

theorem processBatch_results (key wh : String) (addrs : List String)
    (oracle : Nat → Outcome) (whOk : Nat → Bool) (b : Nat) (st : St) (k : Nat)
    (hb : 0 < b) :
    (processBatch key addrs wh oracle whOk b st k).results
      = st.results ++ [classify (k + 1) (oracle k)] := by
  rcases h : oracle k with msg | ⟨status, text, json⟩
  · simp [processBatch, classify, h, Nat.mul_div_cancel _ hb]
  · by_cases h2 : status = 200 ∨ status = 202
    · rcases json with msg | data
      · simp [processBatch, classify, h, h2, Nat.mul_div_cancel _ hb]
      · by_cases h3 : status = 202
        · rcases hq : pyGet data "id" with msg | rid <;>
            simp [processBatch, classify, h, h2, h3, hq, postWebhook,
              Nat.mul_div_cancel _ hb, apply_ite St.results]
        · have h4 : status = 200 := by rcases h2 with h2 | h2 <;> simp_all
          simp [processBatch, classify, h, h4, postWebhook,
            Nat.mul_div_cancel _ hb, apply_ite St.results]
    · simp [processBatch, classify, h, h2, Nat.mul_div_cancel _ hb,
        apply_ite St.results]

theorem processBatch_trace (key wh : String) (addrs : List String)
    (oracle : Nat → Outcome) (whOk : Nat → Bool) (b : Nat) (st : St) (k : Nat) :
    (processBatch key addrs wh oracle whOk b st k).trace
      = st.trace
        ++ [.apiGet (buildUrl wh ((addrs.drop (k * b)).take b)) [("X-API-KEY", key)]]
        ++ ((forwards (oracle k)).map
              (fun d => Event.webhookPost d (whOk st.nPosts))).toList
        ++ (if raised (oracle k) = false ∧ k * b + b < addrs.length
            then [Event.sleep] else []) := by
  rcases h : oracle k with msg | ⟨status, text, json⟩
  · simp [processBatch, forwards, raised, h]
  · by_cases h2 : status = 200 ∨ status = 202
    · rcases json with msg | data
      · simp [processBatch, forwards, raised, h, h2]
      · by_cases h3 : status = 202
        · rcases hq : pyGet data "id" with msg | rid <;>
            simp [processBatch, forwards, raised, h, h2, h3, hq, postWebhook,
              apply_ite St.trace] <;> split <;> simp
        · have h4 : status = 200 := by rcases h2 with h2 | h2 <;> simp_all
          simp [processBatch, forwards, raised, h, h4, postWebhook,
            apply_ite St.trace]
          split <;> simp
    · simp [processBatch, forwards, raised, h, h2, postWebhook, apply_ite St.trace]
      split <;> simp

theorem processBatch_nPosts (key wh : String) (addrs : List String)
    (oracle : Nat → Outcome) (whOk : Nat → Bool) (b : Nat) (st : St) (k : Nat) :
    (processBatch key addrs wh oracle whOk b st k).nPosts
      = st.nPosts + (forwards (oracle k)).toList.length := by
  rcases h : oracle k with msg | ⟨status, text, json⟩
  · simp [processBatch, forwards, h]
  · by_cases h2 : status = 200 ∨ status = 202
    · rcases json with msg | data
      · simp [processBatch, forwards, h, h2]
      · by_cases h3 : status = 202
        · rcases hq : pyGet data "id" with msg | rid <;>
            simp [processBatch, forwards, h, h2, h3, hq, postWebhook,
              apply_ite St.nPosts]
        · have h4 : status = 200 := by rcases h2 with h2 | h2 <;> simp_all
          simp [processBatch, forwards, h, h4, postWebhook, apply_ite St.nPosts]
    · simp [processBatch, forwards, h, h2, postWebhook, apply_ite St.nPosts]

/-- Results list of a run (empty when the call raised). -/
def resultsOf (r : Except String (List BatchResult × Summary × List Event)) :
    List BatchResult :=
  match r with
  | .ok (res, _, _) => res
  | .error _ => []

/-- Summary of a run (zeros when the call raised). -/
def summaryOf (r : Except String (List BatchResult × Summary × List Event)) : Summary :=
  match r with
  | .ok (_, sum, _) => sum
  | .error _ => ⟨0, 0, 0, 0⟩

/-- Event trace of a run (empty when the call raised). -/
def traceOf (r : Except String (List BatchResult × Summary × List Event)) : List Event :=
  match r with
  | .ok (_, _, tr) => tr
  | .error _ => []

/-- Whether the call returned normally. -/
def isOk (r : Except String (List BatchResult × Summary × List Event)) : Bool :=
  match r with
  | .ok _ => true
  | .error _ => false

theorem foldl_results (key wh : String) (addrs : List String) (oracle : Nat → Outcome)
    (whOk : Nat → Bool) (b : Nat) (hb : 0 < b) (l : List Nat) :
    ∀ st : St,
      (l.foldl (processBatch key addrs wh oracle whOk b) st).results
        = st.results ++ l.map (fun k => classify (k + 1) (oracle k)) := by
  induction l with
  | nil => intro st; simp
  | cons k l ih =>
      intro st
      simp only [List.foldl_cons, List.map_cons]
      rw [ih, processBatch_results key wh addrs oracle whOk b st k hb]
      simp

theorem foldl_trace_ext (key wh : String) (addrs : List String) (oracle : Nat → Outcome)
    (whOk : Nat → Bool) (b : Nat) (l : List Nat) :
    ∀ st : St, ∃ t : List Event,
      (l.foldl (processBatch key addrs wh oracle whOk b) st).trace = st.trace ++ t := by
  induction l with
  | nil => intro st; exact ⟨[], by simp⟩
  | cons k l ih =>
      intro st
      obtain ⟨t, ht⟩ := ih (processBatch key addrs wh oracle whOk b st k)
      refine ⟨[Event.apiGet (buildUrl wh ((addrs.drop (k * b)).take b)) [("X-API-KEY", key)]]
          ++ ((forwards (oracle k)).map (fun d => Event.webhookPost d (whOk st.nPosts))).toList
          ++ (if raised (oracle k) = false ∧ k * b + b < addrs.length
              then [Event.sleep] else [])
          ++ t, ?_⟩
      rw [List.foldl_cons, ht, processBatch_trace key wh addrs oracle whOk b st k]
      simp

theorem foldl_urls (key wh : String) (addrs : List String) (oracle : Nat → Outcome)
    (whOk : Nat → Bool) (b : Nat) (l : List Nat) :
    ∀ st : St,
      ((l.foldl (processBatch key addrs wh oracle whOk b) st).trace.filterMap urlOf)
        = st.trace.filterMap urlOf
          ++ l.map (fun k => buildUrl wh ((addrs.drop (k * b)).take b)) := by
  induction l with
  | nil => intro st; simp
  | cons k l ih =>
      intro st
      simp only [List.foldl_cons, List.map_cons]
      rw [ih, processBatch_trace key wh addrs oracle whOk b st k]
      simp only [List.filterMap_append]
      rcases hf : forwards (oracle k) with _ | d <;>
        by_cases hl : raised (oracle k) = false ∧ k * b + b < addrs.length <;>
        simp [urlOf, hf, hl]

theorem foldl_sleeps (key wh : String) (addrs : List String) (oracle : Nat → Outcome)
    (whOk : Nat → Bool) (b : Nat) (l : List Nat) :
    ∀ st : St,
      ((l.foldl (processBatch key addrs wh oracle whOk b) st).trace.countP Event.isSleep)
        = st.trace.countP Event.isSleep
          + (l.filter
              (fun k => !raised (oracle k) && decide (k * b + b < addrs.length))).length := by
  induction l with
  | nil => intro st; simp
  | cons k l ih =>
      intro st
      simp only [List.foldl_cons, List.filter_cons]
      rw [ih, processBatch_trace key wh addrs oracle whOk b st k]
      simp only [List.countP_append]
      rcases hf : forwards (oracle k) with _ | d <;>
        rcases hr : raised (oracle k) <;>
        by_cases hl : k * b + b < addrs.length <;>
        simp [Event.isSleep, hr, hl] <;> omega

theorem foldl_headers (key wh : String) (addrs : List String) (oracle : Nat → Outcome)
    (whOk : Nat → Bool) (b : Nat) (l : List Nat) :
    ∀ (st : St) (u : String) (hd : List (String × String)),
      Event.apiGet u hd ∈ (l.foldl (processBatch key addrs wh oracle whOk b) st).trace →
        Event.apiGet u hd ∈ st.trace ∨ hd = [("X-API-KEY", key)] := by
  induction l with
  | nil => intro st u hd h; exact Or.inl h
  | cons k l ih =>
      intro st u hd h
      rcases ih _ u hd h with h1 | h1
      · rw [processBatch_trace key wh addrs oracle whOk b st k] at h1
        simp only [List.append_assoc, List.mem_append] at h1
        rcases h1 with h1 | h1
        · exact Or.inl h1
        · rcases h1 with h1 | h1
          · simp at h1
            exact Or.inr h1.2
          · rcases h1 with h1 | h1
            · rcases forwards (oracle k) with _ | d <;> simp at h1
            · split at h1 <;> simp at h1
      · exact Or.inr h1

theorem foldl_post_mem (key wh : String) (addrs : List String) (oracle : Nat → Outcome)
    (whOk : Nat → Bool) (b : Nat) (l : List Nat) :
    ∀ (st : St) (k : Nat) (d : Json), k ∈ l → forwards (oracle k) = some d →
      ∃ ok, Event.webhookPost d ok ∈ (l.foldl (processBatch key addrs wh oracle whOk b) st).trace := by
  induction l with
  | nil => intro st k d h; simp at h
  | cons k0 l ih =>
      intro st k d hk hf
      rcases List.mem_cons.mp hk with hk | hk
      · subst hk
        obtain ⟨t, ht⟩ := foldl_trace_ext key wh addrs oracle whOk b l
          (processBatch key addrs wh oracle whOk b st k)
        refine ⟨whOk st.nPosts, ?_⟩
        rw [List.foldl_cons, ht, processBatch_trace key wh addrs oracle whOk b st k, hf]
        simp
      · exact ih _ k d hk hf

theorem total_batches_eq (n : Nat) (b : Int) (hb : 0 < b) :
    Int.fdiv ((n : Int) + b - 1) b = (numBatches n b.toNat : Int) := by
  have hbt : ((b.toNat : Nat) : Int) = b := Int.toNat_of_nonneg hb.le
  have h1 : (n : Int) + b - 1 = ((n + b.toNat - 1 : Nat) : Int) := by omega
  rw [h1]
  conv_lhs => rw [← hbt]
  rw [← Int.ofNat_fdiv]
  rfl

theorem lt_numBatches_iff (n b j : Nat) (hb : 0 < b) :
    j < numBatches n b ↔ j * b < n := by
  unfold numBatches
  constructor
  · intro h
    have h2 : (j + 1) * b ≤ n + b - 1 := (Nat.le_div_iff_mul_le hb).mp h
    have h3 : (j + 1) * b = j * b + b := by ring
    omega
  · intro h
    have h2 : j + 1 ≤ (n + b - 1) / b := by
      apply (Nat.le_div_iff_mul_le hb).mpr
      have h3 : (j + 1) * b = j * b + b := by ring
      omega
    omega

theorem numBatches_succ (n b : Nat) (hb : 0 < b) (hn : 0 < n) :
    numBatches n b = numBatches (n - b) b + 1 := by
  unfold numBatches
  have h1 : n + b - 1 = (n - 1) + b := by omega
  rw [h1, Nat.add_div_right _ hb]
  by_cases h : b < n
  · have h2 : n - b + b - 1 = (n - b - 1) + b := by omega
    rw [h2, Nat.add_div_right _ hb]
    have h3 : n - 1 = (n - b - 1) + b := by omega
    rw [h3, Nat.add_div_right _ hb]
  · have h2 : n - b = 0 := by omega
    rw [h2]
    have h3 : (n - 1) / b = 0 := Nat.div_eq_of_lt (by omega)
    have h4 : (0 + b - 1) / b = 0 := Nat.div_eq_of_lt (by omega)
    rw [h3, h4]

theorem batches_nil (b : Nat) : batches [] b = [] := by
  have h : numBatches 0 b = 0 := by
    unfold numBatches
    rcases Nat.eq_zero_or_pos b with h | h
    · subst h; rfl
    · exact Nat.div_eq_of_lt (by omega)
  simp [batches, h]

theorem batches_cons (addrs : List String) (b : Nat) (hb : 0 < b) (ha : addrs ≠ []) :
    batches addrs b = addrs.take b :: batches (addrs.drop b) b := by
  unfold batches
  rw [List.length_drop, numBatches_succ _ _ hb (List.length_pos.mpr ha),
    List.range_succ_eq_map]
  simp only [List.map_cons, List.map_map, Nat.zero_mul, List.drop_zero]
  congr 1
  apply List.map_congr_left
  intro k _
  simp only [Function.comp_apply, List.drop_drop]
  congr 2
  simp only [Nat.succ_eq_add_one]
  ring

theorem batches_flatten (b : Nat) (hb : 0 < b) (addrs : List String) :
    (batches addrs b).flatten = addrs := by
  suffices h : ∀ (fuel : Nat) (l : List String), l.length ≤ fuel → (batches l b).flatten = l by
    exact h addrs.length addrs le_rfl
  intro fuel
  induction fuel with
  | zero =>
      intro l hl
      have : l = [] := List.eq_nil_of_length_eq_zero (by omega)
      subst this
      simp [batches_nil]
  | succ f ih =>
      intro l hl
      by_cases ha : l = []
      · subst ha; simp [batches_nil]
      · rw [batches_cons l b hb ha, List.flatten_cons,
          ih (l.drop b) (by simp [List.length_drop]; omega)]
        exact List.take_append_drop b l

theorem status_submitted_eq (c : Nat) (rid : Option Json) :
    (BatchResult.submitted c rid).status = "submitted" := rfl

theorem status_completed_eq (c : Nat) (d : Json) :
    (BatchResult.completed c d).status = "completed" := rfl

theorem status_error_eq (c : Nat) (e : String) :
    (BatchResult.error c e).status = "error" := rfl

theorem status_counts (l : List BatchResult) :
    l.countP (fun r => r.status == "submitted")
      + l.countP (fun r => r.status == "completed")
      + l.countP (fun r => r.status == "error") = l.length := by
  induction l with
  | nil => simp
  | cons r l ih =>
      cases r <;>
        simp [List.countP_cons, status_submitted_eq, status_completed_eq,
          status_error_eq] <;> omega

theorem classify_batch (c : Nat) (o : Outcome) : (classify c o).batch = c := by
  rcases o with msg | ⟨status, text, json⟩
  · rfl
  · by_cases h2 : status = 200 ∨ status = 202
    · rcases json with msg | data
      · simp [classify, h2, BatchResult.batch]
      · by_cases h3 : status = 202
        · rcases hq : pyGet data "id" with msg | rid <;>
            simp [classify, h2, h3, hq, BatchResult.batch]
        · have h4 : status = 200 := by rcases h2 with h2 | h2 <;> simp_all
          simp [classify, h4, BatchResult.batch]
    · simp [classify, h2, BatchResult.batch]

/-- Results of a run with `0 < batch_size`, as derived from the loop: one
`classify` entry per batch. -/
def runResults (oracle : Nat → Outcome) (m : Nat) : List BatchResult :=
  (List.range m).map (fun k => classify (k + 1) (oracle k))

theorem results_ite (c : Prop) [Decidable c] (whOk : Nat → Bool) (body : Json) (st : St) :
    (if c then postWebhook whOk body st else st).results = st.results := by
  split <;> rfl

theorem trace_ite_ext (c : Prop) [Decidable c] (whOk : Nat → Bool) (body : Json) (st : St) :
    ∃ t, (if c then postWebhook whOk body st else st).trace = st.trace ++ t := by
  split
  · exact ⟨_, rfl⟩
  · exact ⟨[], by simp⟩

theorem urls_ite (c : Prop) [Decidable c] (whOk : Nat → Bool) (body : Json) (st : St) :
    ((if c then postWebhook whOk body st else st).trace.filterMap urlOf)
      = st.trace.filterMap urlOf := by
  split <;> simp [postWebhook, urlOf]

theorem sleeps_ite (c : Prop) [Decidable c] (whOk : Nat → Bool) (body : Json) (st : St) :
    ((if c then postWebhook whOk body st else st).trace.countP Event.isSleep)
      = st.trace.countP Event.isSleep := by
  split <;> simp [postWebhook, Event.isSleep]

theorem apiGet_mem_ite (c : Prop) [Decidable c] (whOk : Nat → Bool) (body : Json)
    (st : St) (u : String) (hd : List (String × String)) :
    Event.apiGet u hd ∈ (if c then postWebhook whOk body st else st).trace →
      Event.apiGet u hd ∈ st.trace := by
  split
  · intro h
    rcases List.mem_append.mp h with h | h
    · exact h
    · simp at h
  · exact id

theorem mem_trace_ite (c : Prop) [Decidable c] (whOk : Nat → Bool) (body : Json)
    (st : St) (e : Event) (h : e ∈ st.trace) :
    e ∈ (if c then postWebhook whOk body st else st).trace := by
  split
  · exact List.mem_append_left _ h
  · exact h

theorem ok_decomp (r : Except String (List BatchResult × Summary × List Event))
    (h : isOk r = true) : r = .ok (resultsOf r, summaryOf r, traceOf r) := by
  rcases r with e | ⟨res, sum, tr⟩
  · simp [isOk] at h
  · rfl

theorem submit_zero (key wh : String) (addrs : List String) (oracle : Nat → Outcome)
    (whOk : Nat → Bool) :
    submit_batch_with_webhook key addrs wh oracle whOk 0 = .error zeroDivMsg := by
  unfold submit_batch_with_webhook
  rw [if_pos rfl]

theorem submit_neg_raw (key wh : String) (addrs : List String) (oracle : Nat → Outcome)
    (whOk : Nat → Bool) (b : Int) (hb : b < 0) :
    submit_batch_with_webhook key addrs wh oracle whOk b
      = .ok ([], ⟨Int.fdiv ((addrs.length : Int) + b - 1) b, 0, 0, 0⟩,
             [Event.webhookPost testBody (whOk 0)]) := by
  unfold submit_batch_with_webhook
  rw [if_neg (by omega : ¬ b = 0)]
  simp only [if_neg (by omega : ¬ (0 : Int) < b)]
  rfl

theorem submit_pos_raw (key wh : String) (addrs : List String) (oracle : Nat → Outcome)
    (whOk : Nat → Bool) (b : Int) (hb : 0 < b) :
    submit_batch_with_webhook key addrs wh oracle whOk b
      = (let st := (List.range (numBatches addrs.length b.toNat)).foldl
            (processBatch key addrs wh oracle whOk b.toNat)
            (postWebhook whOk testBody ⟨[], [], 0⟩)
         let summary : Summary := ⟨Int.fdiv ((addrs.length : Int) + b - 1) b,
            st.results.countP (fun r => r.status == "submitted"),
            st.results.countP (fun r => r.status == "completed"),
            st.results.countP (fun r => r.status == "error")⟩
         let st2 := if 0 < st.results.countP (fun r => r.status == "submitted")
            then postWebhook whOk (summaryBody summary) st else st
         Except.ok (st2.results, summary, st2.trace)) := by
  unfold submit_batch_with_webhook
  rw [if_neg (by omega : ¬ b = 0)]
  simp only [if_pos hb]

theorem submit_isOk_pos (key wh : String) (addrs : List String) (oracle : Nat → Outcome)
    (whOk : Nat → Bool) (b : Int) (hb : 0 < b) :
    isOk (submit_batch_with_webhook key addrs wh oracle whOk b) = true := by
  rw [submit_pos_raw key wh addrs oracle whOk b hb]
  rfl

theorem submit_results_pos (key wh : String) (addrs : List String) (oracle : Nat → Outcome)
    (whOk : Nat → Bool) (b : Int) (hb : 0 < b) :
    resultsOf (submit_batch_with_webhook key addrs wh oracle whOk b)
      = runResults oracle (numBatches addrs.length b.toNat) := by
  rw [submit_pos_raw key wh addrs oracle whOk b hb]
  simp only [resultsOf, results_ite]
  rw [foldl_results key wh addrs oracle whOk b.toNat (by omega) (List.range _)]
  rfl

theorem submit_summary_pos (key wh : String) (addrs : List String) (oracle : Nat → Outcome)
    (whOk : Nat → Bool) (b : Int) (hb : 0 < b) :
    summaryOf (submit_batch_with_webhook key addrs wh oracle whOk b)
      = ⟨(numBatches addrs.length b.toNat : Int),
         (runResults oracle (numBatches addrs.length b.toNat)).countP
           (fun r => r.status == "submitted"),
         (runResults oracle (numBatches addrs.length b.toNat)).countP
           (fun r => r.status == "completed"),
         (runResults oracle (numBatches addrs.length b.toNat)).countP
           (fun r => r.status == "error")⟩ := by
  rw [submit_pos_raw key wh addrs oracle whOk b hb]
  simp only [summaryOf]
  rw [foldl_results key wh addrs oracle whOk b.toNat (by omega) (List.range _),
    total_batches_eq addrs.length b hb]
  rfl

theorem runResults_length (oracle : Nat → Outcome) (m : Nat) :
    (runResults oracle m).length = m := by
  simp [runResults]

theorem runResults_getElem (oracle : Nat → Outcome) (m k : Nat) (hk : k < m) :
    (runResults oracle m)[k]? = some (classify (k + 1) (oracle k)) := by
  simp [runResults, List.getElem?_range hk]

theorem submit_post_mem (key wh : String) (addrs : List String) (oracle : Nat → Outcome)
    (whOk : Nat → Bool) (b : Int) (hb : 0 < b) (k : Nat) (d : Json)
    (hk : k < numBatches addrs.length b.toNat) (hf : forwards (oracle k) = some d) :
    ∃ ok, Event.webhookPost d ok
      ∈ traceOf (submit_batch_with_webhook key addrs wh oracle whOk b) := by
  rw [submit_pos_raw key wh addrs oracle whOk b hb]
  simp only [traceOf]
  obtain ⟨ok, hmem⟩ := foldl_post_mem key wh addrs oracle whOk b.toNat
    (List.range (numBatches addrs.length b.toNat))
    (postWebhook whOk testBody ⟨[], [], 0⟩) k d (List.mem_range.mpr hk) hf
  exact ⟨ok, mem_trace_ite _ _ _ _ _ hmem⟩

/-- C1: for every address list and positive batch size, once
`submit_batch_with_webhook` returns (every HTTP outcome being arbitrary),
the summary satisfies `submitted + completed + errors = total_batches`
and the results list has exactly `total_batches` entries. -/
theorem C1_run_invariant (key wh : String) (addrs : List String) (oracle : Nat → Outcome)
    (whOk : Nat → Bool) (b : Int) (hb : 0 < b) :
    ∃ res sum tr,
      submit_batch_with_webhook key addrs wh oracle whOk b = .ok (res, sum, tr)
      ∧ (sum.submitted : Int) + sum.completed + sum.errors = sum.total_batches
      ∧ (res.length : Int) = sum.total_batches := by
  refine ⟨_, _, _, ok_decomp _ (submit_isOk_pos key wh addrs oracle whOk b hb), ?_, ?_⟩
  · rw [submit_summary_pos key wh addrs oracle whOk b hb]
    have h := status_counts (runResults oracle (numBatches addrs.length b.toNat))
    have hlen := runResults_length oracle (numBatches addrs.length b.toNat)
    simp only [Summary.mk.injEq]
    omega
  · rw [submit_results_pos key wh addrs oracle whOk b hb,
      submit_summary_pos key wh addrs oracle whOk b hb,
      runResults_length oracle (numBatches addrs.length b.toNat)]

/-- Witness for C1: one address, batch size 1, a transport failure. -/
theorem C1_run_invariant_witness :
    (0 : Int) < 1
    ∧ ∃ res sum tr,
        submit_batch_with_webhook "k" ["a"] "w" (fun _ => Outcome.exn "boom")
          (fun _ => true) 1 = .ok (res, sum, tr)
        ∧ (sum.submitted : Int) + sum.completed + sum.errors = sum.total_batches
        ∧ (res.length : Int) = sum.total_batches :=
  ⟨by decide, C1_run_invariant "k" "w" ["a"] (fun _ => Outcome.exn "boom")
    (fun _ => true) 1 (by decide)⟩

/-- C10: the k-th entry (0-based) of the results list always carries
`batch = k + 1`, for every input, batch size and outcome pattern. -/
theorem C10_batch_indices (key wh : String) (addrs : List String) (oracle : Nat → Outcome)
    (whOk : Nat → Bool) (b : Int) (hb : 0 < b) :
    ∃ res sum tr,
      submit_batch_with_webhook key addrs wh oracle whOk b = .ok (res, sum, tr)
      ∧ ∀ (k : Nat) (r : BatchResult), res[k]? = some r → r.batch = k + 1 := by
  refine ⟨_, _, _, ok_decomp _ (submit_isOk_pos key wh addrs oracle whOk b hb), ?_⟩
  intro k r hr
  rw [submit_results_pos key wh addrs oracle whOk b hb] at hr
  by_cases hk : k < numBatches addrs.length b.toNat
  · rw [runResults_getElem oracle _ k hk] at hr
    have : classify (k + 1) (oracle k) = r := by
      simpa using hr
    rw [← this, classify_batch]
  · have : (runResults oracle (numBatches addrs.length b.toNat)).length ≤ k := by
      rw [runResults_length]; omega
    rw [List.getElem?_eq_none this] at hr
    simp at hr

/-- Witness for C10: one address, batch size 1, first entry has batch 1. -/
theorem C10_batch_indices_witness :
    (0 : Int) < 1
    ∧ ∃ res sum tr,
        submit_batch_with_webhook "k" ["a"] "w" (fun _ => Outcome.exn "boom")
          (fun _ => true) 1 = .ok (res, sum, tr)
        ∧ ∀ (k : Nat) (r : BatchResult), res[k]? = some r → r.batch = k + 1 :=
  ⟨by decide, C10_batch_indices "k" "w" ["a"] (fun _ => Outcome.exn "boom")
    (fun _ => true) 1 (by decide)⟩

/-- C3: a transport exception yields an Error result carrying the
exception text, a non-200/202 status yields an Error result carrying
"status - body", and in both cases the run still records one result for
every batch. -/
theorem C3_per_batch_errors (key wh : String) (addrs : List String) (oracle : Nat → Outcome)
    (whOk : Nat → Bool) (b : Int) (hb : 0 < b) :
    ∃ res sum tr,
      submit_batch_with_webhook key addrs wh oracle whOk b = .ok (res, sum, tr)
      ∧ res.length = numBatches addrs.length b.toNat
      ∧ (∀ k msg, k < numBatches addrs.length b.toNat → oracle k = .exn msg →
          res[k]? = some (.error (k + 1) msg))
      ∧ (∀ k status text json, k < numBatches addrs.length b.toNat →
          oracle k = .resp status text json → status ≠ 200 → status ≠ 202 →
          res[k]? = some (.error (k + 1) (toString status ++ " - " ++ text))) := by
  refine ⟨_, _, _, ok_decomp _ (submit_isOk_pos key wh addrs oracle whOk b hb), ?_, ?_, ?_⟩
  · rw [submit_results_pos key wh addrs oracle whOk b hb, runResults_length]
  · intro k msg hk ho
    rw [submit_results_pos key wh addrs oracle whOk b hb,
      runResults_getElem oracle _ k hk, ho]
    rfl
  · intro k status text json hk ho h200 h202
    rw [submit_results_pos key wh addrs oracle whOk b hb,
      runResults_getElem oracle _ k hk, ho]
    simp [classify, h200, h202]

/-- Witness for C3: two batches, the first failing in transport, the
second with HTTP 500. -/
theorem C3_per_batch_errors_witness :
    (0 : Int) < 1
    ∧ ∃ res sum tr,
        submit_batch_with_webhook "k" ["a", "b"] "w"
          (fun k => if k = 0 then Outcome.exn "boom"
                    else Outcome.resp 500 "oops" (Except.error "not json"))
          (fun _ => true) 1 = .ok (res, sum, tr)
        ∧ res.length = numBatches 2 1
        ∧ (∀ k msg, k < numBatches 2 1 →
            (fun k => if k = 0 then Outcome.exn "boom"
                      else Outcome.resp 500 "oops" (Except.error "not json")) k
              = .exn msg →
            res[k]? = some (.error (k + 1) msg))
        ∧ (∀ k status text json, k < numBatches 2 1 →
            (fun k => if k = 0 then Outcome.exn "boom"
                      else Outcome.resp 500 "oops" (Except.error "not json")) k
              = .resp status text json → status ≠ 200 → status ≠ 202 →
            res[k]? = some (.error (k + 1) (toString status ++ " - " ++ text))) :=
  ⟨by decide, C3_per_batch_errors "k" "w" ["a", "b"]
    (fun k => if k = 0 then Outcome.exn "boom"
              else Outcome.resp 500 "oops" (Except.error "not json"))
    (fun _ => true) 1 (by decide)⟩

theorem forwards_202_obj (text : String) (fields : List (String × Json)) :
    forwards (Outcome.resp 202 text (Except.ok (Json.obj fields)))
      = some (Json.obj fields) := by
  simp [forwards, pyGet]

theorem forwards_200 (text : String) (data : Json) :
    forwards (Outcome.resp 200 text (Except.ok data)) = some data := by
  simp [forwards]

/-- C6: an HTTP 202 response records a Submitted result carrying the
body's "id" field and forwards the body to the webhook; an HTTP 200
response records a Completed result carrying the payload and forwards it
likewise. -/
theorem C6_success_paths (key wh : String) (addrs : List String) (oracle : Nat → Outcome)
    (whOk : Nat → Bool) (b : Int) (hb : 0 < b) :
    ∃ res sum tr,
      submit_batch_with_webhook key addrs wh oracle whOk b = .ok (res, sum, tr)
      ∧ (∀ k text fields, k < numBatches addrs.length b.toNat →
          oracle k = .resp 202 text (.ok (.obj fields)) →
          res[k]? = some (.submitted (k + 1) (fields.lookup "id"))
          ∧ ∃ ok, Event.webhookPost (.obj fields) ok ∈ tr)
      ∧ (∀ k text data, k < numBatches addrs.length b.toNat →
          oracle k = .resp 200 text (.ok data) →
          res[k]? = some (.completed (k + 1) data)
          ∧ ∃ ok, Event.webhookPost data ok ∈ tr) := by
  refine ⟨_, _, _, ok_decomp _ (submit_isOk_pos key wh addrs oracle whOk b hb), ?_, ?_⟩
  · intro k text fields hk ho
    constructor
    · rw [submit_results_pos key wh addrs oracle whOk b hb,
        runResults_getElem oracle _ k hk, ho]
      simp [classify, pyGet]
    · exact submit_post_mem key wh addrs oracle whOk b hb k _ hk
        (by rw [ho]; exact forwards_202_obj text fields)
  · intro k text data hk ho
    constructor
    · rw [submit_results_pos key wh addrs oracle whOk b hb,
        runResults_getElem oracle _ k hk, ho]
      simp [classify]
    · exact submit_post_mem key wh addrs oracle whOk b hb k _ hk
        (by rw [ho]; exact forwards_200 text data)

/-- Witness for C6: batch 0 answers 202 with body containing id "abc123",
batch 1 answers 200. -/
theorem C6_success_paths_witness :
    (0 : Int) < 1
    ∧ ∃ res sum tr,
        submit_batch_with_webhook "k" ["a", "b"] "w"
          (fun k => if k = 0
                    then Outcome.resp 202 "t" (Except.ok (Json.obj [("id", Json.str "abc123")]))
                    else Outcome.resp 200 "t" (Except.ok (Json.arr [])))
          (fun _ => true) 1 = .ok (res, sum, tr)
        ∧ (∀ k text fields, k < numBatches 2 1 →
            (fun k => if k = 0
                      then Outcome.resp 202 "t" (Except.ok (Json.obj [("id", Json.str "abc123")]))
                      else Outcome.resp 200 "t" (Except.ok (Json.arr []))) k
              = .resp 202 text (.ok (.obj fields)) →
            res[k]? = some (.submitted (k + 1) (fields.lookup "id"))
            ∧ ∃ ok, Event.webhookPost (.obj fields) ok ∈ tr)
        ∧ (∀ k text data, k < numBatches 2 1 →
            (fun k => if k = 0
                      then Outcome.resp 202 "t" (Except.ok (Json.obj [("id", Json.str "abc123")]))
                      else Outcome.resp 200 "t" (Except.ok (Json.arr []))) k
              = .resp 200 text (.ok data) →
            res[k]? = some (.completed (k + 1) data)
            ∧ ∃ ok, Event.webhookPost data ok ∈ tr) :=
  ⟨by decide, C6_success_paths "k" "w" ["a", "b"]
    (fun k => if k = 0
              then Outcome.resp 202 "t" (Except.ok (Json.obj [("id", Json.str "abc123")]))
              else Outcome.resp 200 "t" (Except.ok (Json.arr [])))
    (fun _ => true) 1 (by decide)⟩

/-- C2: the loop slices the address list into exactly `ceil(n / b)`
contiguous batches of length at most `b` (all but the last of length
exactly `b`) whose concatenation is the original list; 45 addresses with
batch size 20 give sizes [20, 20, 5] and `total_batches = 3`. -/
theorem C2_partitioning (addrs : List String) (b : Nat) (hb : 0 < b) :
    (batches addrs b).length = (addrs.length + b - 1) / b
    ∧ (batches addrs b).flatten = addrs
    ∧ (∀ c ∈ batches addrs b, c.length ≤ b)
    ∧ (∀ k, k + 1 < (batches addrs b).length →
        ∃ c, (batches addrs b)[k]? = some c ∧ c.length = b)
    ∧ (addrs.length = 45 → b = 20 →
        (batches addrs b).map List.length = [20, 20, 5]
        ∧ ∀ (key wh : String) (oracle : Nat → Outcome) (whOk : Nat → Bool),
            ∃ res sum tr,
              submit_batch_with_webhook key addrs wh oracle whOk 20 = .ok (res, sum, tr)
              ∧ sum.total_batches = 3 ∧ res.length = 3) := by
  have hm : (batches addrs b).length = numBatches addrs.length b := by
    simp [batches]
  refine ⟨by simpa [numBatches] using hm, batches_flatten b hb addrs, ?_, ?_, ?_⟩
  · intro c hc
    simp only [batches, List.mem_map, List.mem_range] at hc
    obtain ⟨k, _, rfl⟩ := hc
    rw [List.length_take]
    exact min_le_left _ _
  · intro k hk1
    have hk : k < numBatches addrs.length b := by omega
    refine ⟨(addrs.drop (k * b)).take b, by simp [batches, List.getElem?_range hk], ?_⟩
    have h2 : (k + 1) * b < addrs.length :=
      (lt_numBatches_iff addrs.length b (k + 1) hb).mp (by omega)
    have h3 : (k + 1) * b = k * b + b := by ring
    rw [List.length_take, List.length_drop]
    omega
  · intro h45 hb20
    subst hb20
    have hm3 : numBatches addrs.length 20 = 3 := by rw [h45]; rfl
    constructor
    · simp only [batches, hm3]
      have : List.range 3 = [0, 1, 2] := rfl
      rw [this]
      simp [List.length_take, List.length_drop, h45]
    · intro key wh oracle whOk
      have hb20' : (0 : Int) < 20 := by decide
      refine ⟨_, _, _, ok_decomp _ (submit_isOk_pos key wh addrs oracle whOk 20 hb20'),
        ?_, ?_⟩
      · rw [submit_summary_pos key wh addrs oracle whOk 20 hb20']
        show ((numBatches addrs.length (20 : Int).toNat : Nat) : Int) = 3
        rw [show ((20 : Int).toNat) = 20 from rfl, hm3]
        rfl
      · rw [submit_results_pos key wh addrs oracle whOk 20 hb20', runResults_length,
          show ((20 : Int).toNat) = 20 from rfl, hm3]

/-- Witness for C2: 45 replicated addresses with batch size 20. -/
theorem C2_partitioning_witness :
    0 < 20
    ∧ ((batches (List.replicate 45 "A") 20).length
          = ((List.replicate 45 "A").length + 20 - 1) / 20
        ∧ (batches (List.replicate 45 "A") 20).flatten = List.replicate 45 "A"
        ∧ (∀ c ∈ batches (List.replicate 45 "A") 20, c.length ≤ 20)
        ∧ (∀ k, k + 1 < (batches (List.replicate 45 "A") 20).length →
            ∃ c, (batches (List.replicate 45 "A") 20)[k]? = some c ∧ c.length = 20)
        ∧ ((List.replicate 45 "A").length = 45 → 20 = 20 →
            (batches (List.replicate 45 "A") 20).map List.length = [20, 20, 5]
            ∧ ∀ (key wh : String) (oracle : Nat → Outcome) (whOk : Nat → Bool),
                ∃ res sum tr,
                  submit_batch_with_webhook key (List.replicate 45 "A") wh oracle whOk 20
                    = .ok (res, sum, tr)
                  ∧ sum.total_batches = 3 ∧ res.length = 3)) :=
  ⟨by decide, C2_partitioning (List.replicate 45 "A") 20 (by decide)⟩

/-- C4: the formatter is a pure per-record map: it preserves length and
order, and renders each record as "ADDRESS, CITY, STATE ZIP" with the
first three fields stripped and upper-cased and the zip only stripped;
absent fields render as empty strings without failing. -/
theorem C4_formatter (df : List Row) :
    (format_addresses_from_dataframe df).length = df.length
    ∧ (∀ (k : Nat) (r : Row), df[k]? = some r →
        (format_addresses_from_dataframe df)[k]?
          = some (pyUpper (pyStrip (r.get "Address" "")) ++ ", "
              ++ pyUpper (pyStrip (r.get "City" "")) ++ ", "
              ++ pyUpper (pyStrip (r.get "State" "")) ++ " "
              ++ pyStrip (r.get "Zip" "")))
    ∧ format_addresses_from_dataframe [⟨[]⟩] = [", ,  "] := by
  refine ⟨by simp [format_addresses_from_dataframe], ?_, by rfl⟩
  intro k r hr
  simp [format_addresses_from_dataframe, hr]

/-- Witness for C4: one row with padded lower-case fields. -/
theorem C4_formatter_witness :
    ([(⟨[("Address", " 12 main st "), ("City", " boston "), ("State", " ma "),
        ("Zip", " 02139 ")]⟩ : Row)][0]?
      = some (⟨[("Address", " 12 main st "), ("City", " boston "), ("State", " ma "),
        ("Zip", " 02139 ")]⟩ : Row))
    ∧ (format_addresses_from_dataframe
        [⟨[("Address", " 12 main st "), ("City", " boston "), ("State", " ma "),
          ("Zip", " 02139 ")]⟩])[0]?
      = some "12 MAIN ST, BOSTON, MA 02139" := by
  constructor
  · rfl
  · have h := (C4_formatter
      [⟨[("Address", " 12 main st "), ("City", " boston "), ("State", " ma "),
        ("Zip", " 02139 ")]⟩]).2.1 0
      (⟨[("Address", " 12 main st "), ("City", " boston "), ("State", " ma "),
        ("Zip", " 02139 ")]⟩ : Row) rfl
    rw [h]
    rfl

/-- C5 counterexample: called with an empty address list and the valid
batch size 20, the function reports no precondition violation at all — it
returns normally, with an empty results list. -/
theorem C5_precondition_counterexample :
    isOk (submit_batch_with_webhook "k" [] "w" (fun _ => Outcome.exn "e")
      (fun _ => true) 20) = true
    ∧ resultsOf (submit_batch_with_webhook "k" [] "w" (fun _ => Outcome.exn "e")
        (fun _ => true) 20) = [] :=
  ⟨rfl, rfl⟩

/-- C5 amended: only `batch_size = 0` aborts the call (the division at
line 44 raises, before any network traffic); an empty address list or a
negative batch size is not reported — the function returns normally with
an empty results list and no API request is issued. -/
theorem C5_preconditions (key wh : String) (addrs : List String) (oracle : Nat → Outcome)
    (whOk : Nat → Bool) (b : Int) :
    (b = 0 → submit_batch_with_webhook key addrs wh oracle whOk b = .error zeroDivMsg)
    ∧ (b ≠ 0 → b < 0 ∨ addrs = [] →
        ∃ sum tr,
          submit_batch_with_webhook key addrs wh oracle whOk b = .ok ([], sum, tr)
          ∧ ∀ u hd, Event.apiGet u hd ∉ tr) := by
  constructor
  · intro h0
    subst h0
    exact submit_zero key wh addrs oracle whOk
  · intro hne hcase
    by_cases hpos : 0 < b
    · have ha : addrs = [] := by
        rcases hcase with h | h
        · omega
        · exact h
      subst ha
      rw [submit_pos_raw key wh [] oracle whOk b hpos]
      have hm : numBatches 0 b.toNat = 0 := by
        unfold numBatches
        exact Nat.div_eq_of_lt (by omega)
      simp only [List.length_nil]
      rw [hm]
      refine ⟨_, _, rfl, ?_⟩
      intro u hd h
      simp [postWebhook] at h
    · have hneg : b < 0 := by omega
      rw [submit_neg_raw key wh addrs oracle whOk b hneg]
      refine ⟨_, _, rfl, ?_⟩
      intro u hd h
      simp at h

/-- Witness for amended C5: batch size 0 raises; the empty list returns
normally with no API request. -/
theorem C5_preconditions_witness :
    submit_batch_with_webhook "k" ["a"] "w" (fun _ => Outcome.exn "e") (fun _ => true) 0
      = .error zeroDivMsg
    ∧ ∃ sum tr,
        submit_batch_with_webhook "k" [] "w" (fun _ => Outcome.exn "e") (fun _ => true) 20
          = .ok ([], sum, tr)
        ∧ ∀ u hd, Event.apiGet u hd ∉ tr :=
  ⟨(C5_preconditions "k" "w" ["a"] (fun _ => Outcome.exn "e") (fun _ => true) 0).1 rfl,
   (C5_preconditions "k" "w" [] (fun _ => Outcome.exn "e") (fun _ => true) 20).2
     (by decide) (Or.inr rfl)⟩

/-- C7 counterexample: a run of two batches whose requests raise
transport exceptions contains no sleep event at all — the claimed
unconditional inter-batch pause is skipped on the exception path, because
`time.sleep(1)` sits inside the `try` block. -/
theorem C7_pause_counterexample :
    (resultsOf (submit_batch_with_webhook "k" ["a", "b"] "w" (fun _ => Outcome.exn "boom")
        (fun _ => true) 1)).length = 2
    ∧ (traceOf (submit_batch_with_webhook "k" ["a", "b"] "w" (fun _ => Outcome.exn "boom")
        (fun _ => true) 1)).countP Event.isSleep = 0 :=
  ⟨rfl, rfl⟩

/-- C7 amended: the 1-second pause occurs exactly after those non-last
batches whose exchange did not raise an exception; on a transport
exception (or a response-parsing exception) the pause is skipped. -/
theorem C7_pause_amended (key wh : String) (addrs : List String) (oracle : Nat → Outcome)
    (whOk : Nat → Bool) (b : Int) (hb : 0 < b) :
    (traceOf (submit_batch_with_webhook key addrs wh oracle whOk b)).countP Event.isSleep
      = ((List.range (numBatches addrs.length b.toNat)).filter
          (fun k => !raised (oracle k)
            && decide (k + 1 < numBatches addrs.length b.toNat))).length := by
  rw [submit_pos_raw key wh addrs oracle whOk b hb]
  simp only [traceOf]
  rw [sleeps_ite, foldl_sleeps key wh addrs oracle whOk b.toNat (List.range _)]
  have h0 : (postWebhook whOk testBody ⟨[], [], 0⟩).trace.countP Event.isSleep = 0 := rfl
  rw [h0, Nat.zero_add]
  congr 1
  apply List.filter_congr
  intro k hk
  have hbt : 0 < b.toNat := by omega
  have hmul : (k + 1) * b.toNat = k * b.toNat + b.toNat := by ring
  have hiff : (k * b.toNat + b.toNat < addrs.length)
      ↔ (k + 1 < numBatches addrs.length b.toNat) := by
    rw [lt_numBatches_iff addrs.length b.toNat (k + 1) hbt, hmul]
  rw [show decide (k * b.toNat + b.toNat < addrs.length)
      = decide (k + 1 < numBatches addrs.length b.toNat) from decide_eq_decide.mpr hiff]

/-- Witness for amended C7: two batches answering HTTP 200, one pause. -/
theorem C7_pause_amended_witness :
    (0 : Int) < 1
    ∧ (traceOf (submit_batch_with_webhook "k" ["a", "b"] "w"
          (fun _ => Outcome.resp 200 "t" (Except.ok Json.null)) (fun _ => true) 1)).countP
        Event.isSleep
      = ((List.range (numBatches (["a", "b"] : List String).length (1 : Int).toNat)).filter
          (fun k => !raised ((fun _ => Outcome.resp 200 "t" (Except.ok Json.null)) k)
            && decide (k + 1 < numBatches (["a", "b"] : List String).length (1 : Int).toNat))).length :=
  ⟨by decide, C7_pause_amended "k" "w" ["a", "b"]
    (fun _ => Outcome.resp 200 "t" (Except.ok Json.null)) (fun _ => true) 1 (by decide)⟩

/-- C8 counterexample: the run-start webhook body maps "test" to the JSON
string "true" (line 52 writes the Python string "true"), which differs
from the claimed boolean true. -/
theorem C8_testpost_counterexample :
    (traceOf (submit_batch_with_webhook "k" [] "w" (fun _ => Outcome.exn "e")
        (fun _ => true) 20)).head? = some (Event.webhookPost testBody true)
    ∧ testBody
        ≠ Json.obj [("test", Json.bool true), ("message", Json.str "Starting processing")] := by
  refine ⟨rfl, ?_⟩
  intro h
  simp [testBody] at h

/-- C8 amended: the run-start POST body is exactly the JSON object
mapping "test" to the string "true" and "message" to "Starting
processing"; it is the first event of every run, and webhook delivery
failures change neither the results nor the summary. -/
theorem C8_testpost_amended (key wh : String) (addrs : List String) (oracle : Nat → Outcome)
    (whOk whOk2 : Nat → Bool) (b : Int) (hb : b ≠ 0) :
    (traceOf (submit_batch_with_webhook key addrs wh oracle whOk b)).head?
      = some (Event.webhookPost
          (Json.obj [("test", Json.str "true"), ("message", Json.str "Starting processing")])
          (whOk 0))
    ∧ resultsOf (submit_batch_with_webhook key addrs wh oracle whOk2 b)
        = resultsOf (submit_batch_with_webhook key addrs wh oracle whOk b)
    ∧ summaryOf (submit_batch_with_webhook key addrs wh oracle whOk2 b)
        = summaryOf (submit_batch_with_webhook key addrs wh oracle whOk b) := by
  rcases lt_trichotomy b 0 with hneg | h0 | hpos
  · rw [submit_neg_raw key wh addrs oracle whOk b hneg,
      submit_neg_raw key wh addrs oracle whOk2 b hneg]
    exact ⟨rfl, rfl, rfl⟩
  · exact absurd h0 hb
  · refine ⟨?_, ?_, ?_⟩
    · rw [submit_pos_raw key wh addrs oracle whOk b hpos]
      simp only [traceOf]
      obtain ⟨t, ht⟩ := foldl_trace_ext key wh addrs oracle whOk b.toNat
        (List.range (numBatches addrs.length b.toNat))
        (postWebhook whOk testBody ⟨[], [], 0⟩)
      have hinit : (postWebhook whOk testBody (⟨[], [], 0⟩ : St)).trace
          = [Event.webhookPost testBody (whOk 0)] := rfl
      split
      · rw [postWebhook_trace, ht, hinit]
        simp [testBody]
      · rw [ht, hinit]
        simp [testBody]
    · rw [submit_results_pos key wh addrs oracle whOk b hpos,
        submit_results_pos key wh addrs oracle whOk2 b hpos]
    · rw [submit_summary_pos key wh addrs oracle whOk b hpos,
        submit_summary_pos key wh addrs oracle whOk2 b hpos]

/-- Witness for amended C8 on a concrete one-batch run with a failing
webhook. -/
theorem C8_testpost_amended_witness :
    (1 : Int) ≠ 0
    ∧ ((traceOf (submit_batch_with_webhook "k" ["a"] "w" (fun _ => Outcome.exn "e")
          (fun _ => false) 1)).head?
        = some (Event.webhookPost
            (Json.obj [("test", Json.str "true"), ("message", Json.str "Starting processing")])
            ((fun _ => false) 0))
      ∧ resultsOf (submit_batch_with_webhook "k" ["a"] "w" (fun _ => Outcome.exn "e")
            (fun _ => true) 1)
          = resultsOf (submit_batch_with_webhook "k" ["a"] "w" (fun _ => Outcome.exn "e")
              (fun _ => false) 1)
      ∧ summaryOf (submit_batch_with_webhook "k" ["a"] "w" (fun _ => Outcome.exn "e")
            (fun _ => true) 1)
          = summaryOf (submit_batch_with_webhook "k" ["a"] "w" (fun _ => Outcome.exn "e")
              (fun _ => false) 1)) :=
  ⟨by decide, C8_testpost_amended "k" "w" ["a"] (fun _ => Outcome.exn "e")
    (fun _ => false) (fun _ => true) 1 (by decide)⟩

/-- C9: the request URL never depends on the API key — two runs differing
only in the key issue identical URL sequences — and every API GET carries
the key exactly as the X-API-KEY header. -/
theorem C9_key_in_header_only (key key2 wh : String) (addrs : List String)
    (oracle : Nat → Outcome) (whOk : Nat → Bool) (b : Int) :
    (traceOf (submit_batch_with_webhook key addrs wh oracle whOk b)).filterMap urlOf
      = (traceOf (submit_batch_with_webhook key2 addrs wh oracle whOk b)).filterMap urlOf
    ∧ ∀ u hd,
        Event.apiGet u hd ∈ traceOf (submit_batch_with_webhook key addrs wh oracle whOk b) →
          hd = [("X-API-KEY", key)] := by
  rcases lt_trichotomy b 0 with hneg | h0 | hpos
  · rw [submit_neg_raw key wh addrs oracle whOk b hneg,
      submit_neg_raw key2 wh addrs oracle whOk b hneg]
    refine ⟨rfl, ?_⟩
    intro u hd h
    simp [traceOf] at h
  · subst h0
    rw [submit_zero key wh addrs oracle whOk, submit_zero key2 wh addrs oracle whOk]
    refine ⟨rfl, ?_⟩
    intro u hd h
    simp [traceOf] at h
  · constructor
    · rw [submit_pos_raw key wh addrs oracle whOk b hpos,
        submit_pos_raw key2 wh addrs oracle whOk b hpos]
      simp only [traceOf]
      rw [urls_ite, urls_ite,
        foldl_urls key wh addrs oracle whOk b.toNat (List.range _),
        foldl_urls key2 wh addrs oracle whOk b.toNat (List.range _)]
    · intro u hd h
      rw [submit_pos_raw key wh addrs oracle whOk b hpos] at h
      simp only [traceOf] at h
      have h2 := apiGet_mem_ite _ whOk _ _ u hd h
      have h3 := foldl_headers key wh addrs oracle whOk b.toNat (List.range _) _ u hd h2
      rcases h3 with h3 | h3
      · simp [postWebhook] at h3
      · exact h3

/-- Witness for C9: a concrete one-batch run, exhibiting the API GET
event and its header list. -/
theorem C9_key_in_header_only_witness :
    Event.apiGet "https://api.app.outscraper.com/whitepages-addresses?webhook_url=w&query=a"
        [("X-API-KEY", "k")]
      ∈ traceOf (submit_batch_with_webhook "k" ["a"] "w" (fun _ => Outcome.exn "e")
          (fun _ => true) 1)
    ∧ ([("X-API-KEY", "k")] : List (String × String)) = [("X-API-KEY", "k")] := by
  have e : traceOf (submit_batch_with_webhook "k" ["a"] "w" (fun _ => Outcome.exn "e")
        (fun _ => true) 1)
      = [Event.webhookPost testBody true,
         Event.apiGet "https://api.app.outscraper.com/whitepages-addresses?webhook_url=w&query=a"
           [("X-API-KEY", "k")]] := rfl
  have hmem : Event.apiGet
      "https://api.app.outscraper.com/whitepages-addresses?webhook_url=w&query=a"
      [("X-API-KEY", "k")]
      ∈ traceOf (submit_batch_with_webhook "k" ["a"] "w" (fun _ => Outcome.exn "e")
          (fun _ => true) 1) := by
    rw [e]
    exact List.Mem.tail _ (List.Mem.head _)
  exact ⟨hmem, (C9_key_in_header_only "k" "q" "w" ["a"] (fun _ => Outcome.exn "e")
    (fun _ => true) 1).2 _ _ hmem⟩

end Superskipper
